import Mathlib

/-!
# AirConditioningControl

A model of `src/main.cpp`: the start-up dialog, the control window and its slots.

Conventions of the model.

* `int` values are `Int`; the only arithmetic the program performs on them is `min`/`max`,
  which cannot overflow.
* `double` values are rationals: the program's floating-point expressions are read as the exact
  arithmetic they denote. IEEE rounding and the textual rendering performed by
  `QString::arg(double)` are outside the model; a text built by `QString(fmt).arg(x)` is kept as
  the pair of its format and the number substituted for `%1`.
* Widgets are records of the properties the program reads or writes. Where a Qt call has a
  documented effect the program relies on (`QString::toInt`, `QAbstractSlider::setValue`,
  `QComboBox::setCurrentIndex`, signal delivery through `connect`), that effect is written out.
-/

/-! ## Qt values -/

namespace QString

/-- White space skipped by `QString::toInt` at both ends of the text. -/
def isSpace (c : Char) : Bool :=
  c == ' ' || c == '\t' || c == '\n' || c == '\r'

/-- Value of a decimal digit. -/
def digitValue (c : Char) : Option Nat :=
  if '0' ≤ c ∧ c ≤ '9' then some (c.toNat - '0'.toNat) else none

/-- Reads a run of decimal digits, most significant first. -/
def parseDigits : List Char → Nat → Option Nat
  | [], acc => some acc
  | c :: cs, acc =>
    match digitValue c with
    | some d => parseDigits cs (acc * 10 + d)
    | none => none

/-- An optional sign followed by at least one digit. -/
def parseInt : List Char → Option Int
  | [] => none
  | '-' :: cs => if cs = [] then none else (parseDigits cs 0).map (fun n => -(n : Int))
  | '+' :: cs => if cs = [] then none else (parseDigits cs 0).map (fun n => (n : Int))
  | cs => (parseDigits cs 0).map (fun n => (n : Int))

/-- The text without leading and trailing white space. -/
def trimmed (cs : List Char) : List Char :=
  ((cs.dropWhile isSpace).reverse.dropWhile isSpace).reverse

/-- Qt `QString::toInt()`: the text read as a base-10 `int`; 0 when the conversion fails
(no number, or a number outside the 32-bit range). -/
def toInt (s : String) : Int :=
  match parseInt (trimmed s.data) with
  | some n => if -2147483648 ≤ n ∧ n ≤ 2147483647 then n else 0
  | none => 0

/-- Qt `QString::number(int)`: the decimal text of an `int`. -/
def number (n : Int) : String :=
  match n with
  | Int.ofNat k => String.mk (Nat.toDigits 10 k)
  | Int.negSucc k => String.mk ('-' :: Nat.toDigits 10 (k + 1))

end QString

/-- A text shown by a widget: empty, or `QString(fmt).arg(value)`. -/
inductive QText where
  | empty
  | arg (fmt : String) (value : ℚ)
  deriving DecidableEq

/-- The number shown by a text, when it shows one. -/
def QText.magnitude : QText → Option ℚ
  | .empty => none
  | .arg _ value => some value

/-- Qt `QColor(r, g, b)`. -/
structure QColor where
  r : Nat
  g : Nat
  b : Nat
  deriving DecidableEq

namespace Qt

/-- Qt `Qt::black`. -/
def black : QColor := ⟨0, 0, 0⟩

/-- Qt `Qt::white`. -/
def white : QColor := ⟨255, 255, 255⟩

end Qt

/-- The colour roles of a `QPalette` that the two themes assign. -/
structure QPalette where
  Window : QColor
  WindowText : QColor
  Base : QColor
  AlternateBase : QColor
  ToolTipBase : QColor
  ToolTipText : QColor
  Text : QColor
  Button : QColor
  ButtonText : QColor
  BrightText : QColor
  Link : QColor
  Highlight : QColor
  HighlightedText : QColor
  deriving DecidableEq

/-- Qt `QRectF`. -/
structure QRectF where
  x : ℚ
  y : ℚ
  width : ℚ
  height : ℚ
  deriving DecidableEq

/-- Position of a graphics item. The marker starts at the origin and only ever moves by
multiples of 10, so its coordinates are kept as integers. -/
structure QPointF where
  x : Int
  y : Int
  deriving DecidableEq

/-- Qt `QGraphicsItem::moveBy(dx, dy)` on the item position. -/
def QPointF.moveBy (p : QPointF) (dx dy : Int) : QPointF :=
  ⟨p.x + dx, p.y + dy⟩

/-- Qt `QSlider`: range and value. -/
structure QSlider where
  minimum : Int
  maximum : Int
  value : Int
  deriving DecidableEq

namespace QSlider

/-- A new slider has range 0..99 and value 0. -/
def new : QSlider := ⟨0, 99, 0⟩

/-- Qt `setValue` keeps the value inside the range. -/
def setValue (s : QSlider) (v : Int) : QSlider :=
  { s with value := max s.minimum (min v s.maximum) }

/-- Qt `setRange(min, max)` installs the range and re-bounds the value. -/
def setRange (s : QSlider) (lo hi : Int) : QSlider :=
  setValue { s with minimum := lo, maximum := max lo hi } s.value

end QSlider

/-- Qt `QComboBox`: the item texts and the current index (-1 when nothing is selected). -/
structure QComboBox where
  items : List String
  currentIndex : Int
  deriving DecidableEq

namespace QComboBox

/-- A new combo box is empty. -/
def new : QComboBox := ⟨[], -1⟩

/-- Qt `addItem`: appends; the first item added becomes the current one. -/
def addItem (c : QComboBox) (text : String) : QComboBox :=
  { items := c.items ++ [text], currentIndex := if c.items = [] then 0 else c.currentIndex }

/-- Qt `setCurrentIndex`: an index that names no item clears the selection. -/
def setCurrentIndex (c : QComboBox) (index : Int) : QComboBox :=
  { c with currentIndex := if 0 ≤ index ∧ index < c.items.length then index else -1 }

end QComboBox

/-- The `type()` of the graphics items the program creates. -/
inductive ItemType where
  | Rect
  | Line
  | Text
  | Ellipse
  deriving DecidableEq

/-- A graphics item as `updateSceneColors` sees it: its type and the colour of its pen
(of its text, for a text item); `none` while the program has not assigned one. -/
structure SceneItem where
  type : ItemType
  color : Option QColor
  deriving DecidableEq

/-! ## The settings file -/

/-- An element below the root: tag name and attributes. -/
structure QDomElement where
  tagName : String
  attributes : List (String × String)
  deriving DecidableEq

/-- Qt `QDomElement::attribute(name)`: the value, or the empty text when absent. -/
def QDomElement.attribute (e : QDomElement) (name : String) : String :=
  match e.attributes.find? (fun a => a.1 == name) with
  | some a => a.2
  | none => ""

/-- Qt `QDomElement::setAttribute(name, int)`. -/
def QDomElement.setAttribute (e : QDomElement) (name : String) (value : Int) : QDomElement :=
  { e with attributes :=
      (e.attributes.filter (fun a => !(a.1 == name))) ++ [(name, QString.number value)] }

/-- A document: its root element and the root's child elements, in order. Deeper levels are
never looked at by the program. -/
structure QDomDocument where
  rootTag : String
  children : List QDomElement
  deriving DecidableEq

/-- Qt `documentElement().firstChildElement(tag)`. -/
def QDomDocument.firstChildElement (doc : QDomDocument) (tag : String) : Option QDomElement :=
  doc.children.find? (fun e => e.tagName == tag)

/-- What `settings.xml` is to the program. Writing `doc.toString()` and parsing it back with
`setContent` yields the document again, so a well-formed file is kept as its document. -/
inductive SettingsFile where
  | unreadable
  | malformed
  | document (doc : QDomDocument)
  deriving DecidableEq

/-! ## InputDialog -/

/-- The start-up dialog: the texts of its three line edits. -/
structure InputDialog where
  temperatureEdit : String
  pressureEdit : String
  humidityEdit : String
  deriving DecidableEq

namespace InputDialog

/-- Method `getTemperature`. -/
def getTemperature (d : InputDialog) : Int := QString.toInt d.temperatureEdit

/-- Method `getPressure`. -/
def getPressure (d : InputDialog) : Int := QString.toInt d.pressureEdit

/-- Method `getHumidity`. -/
def getHumidity (d : InputDialog) : Int := QString.toInt d.humidityEdit

end InputDialog

/-! ## AirConditioningControl -/

/-- The control window: its three stored values and the widgets its slots touch. -/
structure AirConditioningControl where
  temperature : Int
  pressure : Int
  humidity : Int
  temperatureSlider : QSlider
  temperatureUnitCombo : QComboBox
  pressureUnitCombo : QComboBox
  temperatureTextItem : QText
  pressureLabel : QText
  temperatureRect : QRectF
  temperatureFillRect : QRectF
  powerButton : String
  themeButton : String
  palette : Option QPalette
  sceneItems : List SceneItem
  point : QPointF
  deriving DecidableEq

namespace AirConditioningControl

/-- Slot `updateTemperature(value)`: rewrites the temperature text in the selected unit and resizes
the fill rectangle. -/
def updateTemperature (w : AirConditioningControl) (value : Int) : AirConditioningControl :=
  let tempCelsius : ℚ := value
  let tempKelvin : ℚ := tempCelsius + 273.15
  let tempFahrenheit : ℚ := (tempCelsius * 9 / 5) + 32
  let tempText : QText :=
    match w.temperatureUnitCombo.currentIndex with
    | 0 => QText.arg "Температура: %1°C" tempCelsius
    | 1 => QText.arg "Температура: %1 K" tempKelvin
    | 2 => QText.arg "Температура: %1°F" tempFahrenheit
    | _ => QText.empty
  let minTemp : ℚ := w.temperatureSlider.minimum
  let maxTemp : ℚ := w.temperatureSlider.maximum
  let fillHeight : ℚ := (tempCelsius - minTemp) / (maxTemp - minTemp) * w.temperatureRect.height
  { w with
    temperatureTextItem := tempText
    temperatureFillRect :=
      ⟨w.temperatureRect.x, w.temperatureRect.y + w.temperatureRect.height - fillHeight,
        w.temperatureRect.width, fillHeight⟩ }

/-- Slot `updateTemperatureUnits`. -/
def updateTemperatureUnits (w : AirConditioningControl) : AirConditioningControl :=
  updateTemperature w w.temperatureSlider.value

/-- Slot `updatePressureUnits`: rewrites the pressure label in the selected unit. An index other
than 0 and 1 leaves `pressureText` empty. -/
def updatePressureUnits (w : AirConditioningControl) : AirConditioningControl :=
  let pressurePa : ℚ := w.pressure
  let pressureMmHg : ℚ := pressurePa * 0.00750062
  let pressureText : QText :=
    match w.pressureUnitCombo.currentIndex with
    | 0 => QText.arg "%1 Па" pressurePa
    | 1 => QText.arg "%1 мм рт. ст." pressureMmHg
    | _ => QText.empty
  { w with pressureLabel := pressureText }

/-- Slot `togglePower`. -/
def togglePower (w : AirConditioningControl) : AirConditioningControl :=
  { w with powerButton := if w.powerButton = "Включить" then "Выключить" else "Включить" }

/-- The loop body of `updateSceneColors`: rectangles and lines get a pen of the colour, text
items get it as default text colour, any other item is skipped. -/
def setItemColor (color : QColor) (obj : SceneItem) : SceneItem :=
  match obj.type with
  | ItemType.Rect => { obj with color := some color }
  | ItemType.Line => { obj with color := some color }
  | ItemType.Text => { obj with color := some color }
  | _ => obj

/-- Method `updateSceneColors(color)`, over the items of the three scenes. -/
def updateSceneColors (w : AirConditioningControl) (color : QColor) : AirConditioningControl :=
  { w with sceneItems := w.sceneItems.map (setItemColor color) }

/-- The palette built by `applyLightTheme`. -/
def lightPalette : QPalette :=
  { Window := ⟨255, 255, 255⟩
    WindowText := ⟨0, 0, 0⟩
    Base := ⟨240, 240, 240⟩
    AlternateBase := ⟨255, 255, 255⟩
    ToolTipBase := ⟨255, 255, 255⟩
    ToolTipText := ⟨0, 0, 0⟩
    Text := ⟨0, 0, 0⟩
    Button := ⟨240, 240, 240⟩
    ButtonText := ⟨0, 0, 0⟩
    BrightText := ⟨255, 0, 0⟩
    Link := ⟨0, 0, 255⟩
    Highlight := ⟨0, 120, 215⟩
    HighlightedText := ⟨255, 255, 255⟩ }

/-- The palette built by `applyDarkTheme`. -/
def darkPalette : QPalette :=
  { Window := ⟨53, 53, 53⟩
    WindowText := ⟨255, 255, 255⟩
    Base := ⟨25, 25, 25⟩
    AlternateBase := ⟨53, 53, 53⟩
    ToolTipBase := ⟨255, 255, 255⟩
    ToolTipText := ⟨255, 255, 255⟩
    Text := ⟨255, 255, 255⟩
    Button := ⟨53, 53, 53⟩
    ButtonText := ⟨255, 255, 255⟩
    BrightText := ⟨255, 0, 0⟩
    Link := ⟨42, 130, 218⟩
    Highlight := ⟨42, 130, 218⟩
    HighlightedText := ⟨0, 0, 0⟩ }

/-- Method `applyLightTheme`. -/
def applyLightTheme (w : AirConditioningControl) : AirConditioningControl :=
  updateSceneColors { w with palette := some lightPalette } Qt.black

/-- Method `applyDarkTheme`. -/
def applyDarkTheme (w : AirConditioningControl) : AirConditioningControl :=
  updateSceneColors { w with palette := some darkPalette } Qt.white

/-- Slot `toggleTheme`. -/
def toggleTheme (w : AirConditioningControl) : AirConditioningControl :=
  if w.themeButton = "Светлая тема" then
    applyLightTheme { w with themeButton := "Темная тема" }
  else
    applyDarkTheme { w with themeButton := "Светлая тема" }

/-- Slot `movePointUp`. -/
def movePointUp (w : AirConditioningControl) : AirConditioningControl :=
  if w.point.y > -150 then { w with point := w.point.moveBy 0 (-10) } else w

/-- Slot `movePointDown`. -/
def movePointDown (w : AirConditioningControl) : AirConditioningControl :=
  if w.point.y < 150 then { w with point := w.point.moveBy 0 10 } else w

/-- Slot `movePointLeft`. -/
def movePointLeft (w : AirConditioningControl) : AirConditioningControl :=
  if w.point.x > -150 then { w with point := w.point.moveBy (-10) 0 } else w

/-- Slot `movePointRight`. -/
def movePointRight (w : AirConditioningControl) : AirConditioningControl :=
  if w.point.x < 150 then { w with point := w.point.moveBy 10 0 } else w

/-- Method `createUI`: the widgets as built, ending with `updateTemperature(temperature)`. The scene
items are listed scene by scene (temperature, humidity, coordinates); children of an item are
items of its scene. -/
def createUI (temperature pressure humidity : Int) : AirConditioningControl :=
  updateTemperature
    { temperature := temperature
      pressure := pressure
      humidity := humidity
      pressureLabel := QText.arg "%1 Па" pressure
      pressureUnitCombo := (QComboBox.new.addItem "Па").addItem "мм рт. ст."
      temperatureSlider := (QSlider.new.setRange 16 30).setValue temperature
      temperatureUnitCombo := ((QComboBox.new.addItem "°C").addItem "K").addItem "°F"
      powerButton := "Включить"
      themeButton := "Темная тема"
      palette := none
      temperatureRect := ⟨0, 0, 300, 100⟩
      temperatureFillRect := ⟨0, 0, 0, 0⟩
      temperatureTextItem := QText.empty
      sceneItems :=
        [⟨ItemType.Rect, none⟩, ⟨ItemType.Rect, none⟩, ⟨ItemType.Text, none⟩,
         ⟨ItemType.Rect, none⟩, ⟨ItemType.Rect, none⟩, ⟨ItemType.Text, none⟩,
         ⟨ItemType.Line, none⟩, ⟨ItemType.Line, none⟩, ⟨ItemType.Ellipse, none⟩,
         ⟨ItemType.Text, none⟩, ⟨ItemType.Text, none⟩]
      point := ⟨0, 0⟩ }
    temperature

/-- Call `temperatureUnitCombo->setCurrentIndex(index)`: `currentIndexChanged` is connected to
`updateTemperatureUnits` and fires when the index changes. -/
def setTemperatureUnitIndex (w : AirConditioningControl) (index : Int) : AirConditioningControl :=
  let w1 := { w with temperatureUnitCombo := w.temperatureUnitCombo.setCurrentIndex index }
  if w1.temperatureUnitCombo.currentIndex = w.temperatureUnitCombo.currentIndex then w1
  else updateTemperatureUnits w1

/-- Call `pressureUnitCombo->setCurrentIndex(index)`: `currentIndexChanged` is connected to
`updatePressureUnits` and fires when the index changes. -/
def setPressureUnitIndex (w : AirConditioningControl) (index : Int) : AirConditioningControl :=
  let w1 := { w with pressureUnitCombo := w.pressureUnitCombo.setCurrentIndex index }
  if w1.pressureUnitCombo.currentIndex = w.pressureUnitCombo.currentIndex then w1
  else updatePressureUnits w1

/-- The document `saveSettingsToXml` builds. -/
def settingsDocument (w : AirConditioningControl) : QDomDocument :=
  let temperatureUnitElement :=
    (QDomElement.mk "TemperatureUnit" []).setAttribute "index" w.temperatureUnitCombo.currentIndex
  let pressureUnitElement :=
    (QDomElement.mk "PressureUnit" []).setAttribute "index" w.pressureUnitCombo.currentIndex
  { rootTag := "Settings", children := [temperatureUnitElement, pressureUnitElement] }

/-- Method `saveSettingsToXml`: the file afterwards; `opened` is the outcome of
`file.open(WriteOnly | Truncate)`. -/
def saveSettingsToXml (w : AirConditioningControl) (opened : Bool) (file : SettingsFile) :
    SettingsFile :=
  if opened then SettingsFile.document (settingsDocument w) else file

/-- Method `loadSettingsFromXml`. -/
def loadSettingsFromXml (w : AirConditioningControl) (file : SettingsFile) :
    AirConditioningControl :=
  match file with
  | SettingsFile.document doc =>
    let w1 :=
      match doc.firstChildElement "TemperatureUnit" with
      | some temperatureUnitElement =>
        setTemperatureUnitIndex w (QString.toInt (temperatureUnitElement.attribute "index"))
      | none => w
    match doc.firstChildElement "PressureUnit" with
    | some pressureUnitElement =>
      setPressureUnitIndex w1 (QString.toInt (pressureUnitElement.attribute "index"))
    | none => w1
  | _ => w

/-- The constructor: stores the three values, then `createUI()` and `loadSettingsFromXml()`. -/
def construct (initialTemperature initialPressure initialHumidity : Int) (file : SettingsFile) :
    AirConditioningControl :=
  loadSettingsFromXml (createUI initialTemperature initialPressure initialHumidity) file

end AirConditioningControl

namespace QApplication

/-- Function `main`: the window it shows, or `none` when the dialog is cancelled. Here
`accepted` tells whether `inputDialog.exec()` returned `QDialog::Accepted`, and `file` is
`settings.xml` at start-up. -/
def main (inputDialog : InputDialog) (accepted : Bool) (file : SettingsFile) :
    Option AirConditioningControl :=
  if accepted then
    let initialTemperature := max (min inputDialog.getTemperature 30) 16
    let initialPressure := max inputDialog.getPressure 0
    let initialHumidity := max (min inputDialog.getHumidity 100) 0
    some (AirConditioningControl.construct initialTemperature initialPressure initialHumidity file)
  else none

end QApplication

/-! ## The specification's functions -/

/-- Function `clamp(raw, lo, hi)` in the specification's words: `lo` when `raw < lo`, `hi` when
`raw > hi`, and `raw` itself otherwise. -/
def clamp (raw lo hi : Int) : Int :=
  if raw < lo then lo else if raw > hi then hi else raw

/-- The temperature units of the specification. -/
inductive TemperatureUnit where
  | Celsius
  | Kelvin
  | Fahrenheit
  deriving DecidableEq

/-- Unit index of the specification: 0 = Celsius, 1 = Kelvin, 2 = Fahrenheit. -/
def TemperatureUnit.ofIndex (index : Int) : Option TemperatureUnit :=
  if index = 0 then some TemperatureUnit.Celsius
  else if index = 1 then some TemperatureUnit.Kelvin
  else if index = 2 then some TemperatureUnit.Fahrenheit
  else none

/-- Function `convertTemperature(value, unit)` in the specification's words: Celsius passthrough;
Kelvin = value + 273.15; Fahrenheit = value × 9/5 + 32. -/
def convertTemperature (value : ℚ) : TemperatureUnit → ℚ
  | TemperatureUnit.Celsius => value
  | TemperatureUnit.Kelvin => value + 273.15
  | TemperatureUnit.Fahrenheit => value * (9 / 5) + 32

/-- The pressure units of the specification. -/
inductive PressureUnit where
  | Pascal
  | MillimetersOfMercury
  deriving DecidableEq

/-- Unit index of the specification: 0 = Pascal, 1 = mmHg. -/
def PressureUnit.ofIndex (index : Int) : Option PressureUnit :=
  if index = 0 then some PressureUnit.Pascal
  else if index = 1 then some PressureUnit.MillimetersOfMercury
  else none

/-- Function `convertPressure(value, unit)` in the specification's words: Pascal passthrough;
mmHg = value × 0.00750062. -/
def convertPressure (value : ℚ) : PressureUnit → ℚ
  | PressureUnit.Pascal => value
  | PressureUnit.MillimetersOfMercury => value * 0.00750062

/-! ## The airflow point -/

/-- Both coordinates within [-150, 150]. -/
def InBounds (p : QPointF) : Prop :=
  -150 ≤ p.x ∧ p.x ≤ 150 ∧ -150 ≤ p.y ∧ p.y ≤ 150

instance (p : QPointF) : Decidable (InBounds p) := by
  unfold InBounds
  infer_instance

/-- The directions of the four airflow buttons. -/
inductive Direction where
  | Up
  | Down
  | Left
  | Right
  deriving DecidableEq

/-- Operation `moveAirflow(direction)` of the specification: the slot connected to that direction's
button. -/
def moveAirflow (w : AirConditioningControl) : Direction → AirConditioningControl
  | Direction.Up => w.movePointUp
  | Direction.Down => w.movePointDown
  | Direction.Left => w.movePointLeft
  | Direction.Right => w.movePointRight

/-- Position of the marker in the plane `createUI` draws. The axes cross where the marker
starts (the ellipse is centred on (150, 150) of the scene), the X label stands at the right end
of the horizontal axis and the Y label at the top of the vertical axis, so x is the x offset of
the item and y is its y offset negated (the y axis of the scene points down). -/
def AirConditioningControl.planePosition (w : AirConditioningControl) : Int × Int :=
  (w.point.x, -w.point.y)

/-- The window after fifteen clicks on "Вправо" and fifteen on "Вверх" in a freshly built
window: the marker sits in the upper right corner (150, 150) of the plane. -/
def upperRightWindow : AirConditioningControl :=
  AirConditioningControl.movePointUp^[15]
    (AirConditioningControl.movePointRight^[15] (AirConditioningControl.createUI 20 0 50))

/-! ## Auxiliary states and predicates -/

namespace AirConditioningControl

/-- The fields no unit change touches. -/
def SameOutsideUnits (w w1 : AirConditioningControl) : Prop :=
  w1.temperature = w.temperature ∧ w1.pressure = w.pressure ∧ w1.humidity = w.humidity ∧
    w1.temperatureSlider = w.temperatureSlider ∧ w1.temperatureRect = w.temperatureRect ∧
    w1.powerButton = w.powerButton ∧ w1.themeButton = w.themeButton ∧
    w1.palette = w.palette ∧ w1.sceneItems = w.sceneItems ∧ w1.point = w.point

instance (w w1 : AirConditioningControl) : Decidable (SameOutsideUnits w w1) := by
  unfold SameOutsideUnits
  infer_instance

/-- The window with the temperature-unit combo showing index `u`. -/
def withTemperatureUnitIndex (w : AirConditioningControl) (u : Int) : AirConditioningControl :=
  { w with temperatureUnitCombo := { w.temperatureUnitCombo with currentIndex := u } }

/-- The window storing pressure `p`, with the pressure-unit combo showing index `u`. -/
def withPressureUnitIndex (w : AirConditioningControl) (p u : Int) : AirConditioningControl :=
  { w with pressure := p, pressureUnitCombo := { w.pressureUnitCombo with currentIndex := u } }

end AirConditioningControl

/-- A window in which the user has selected °F and мм рт. ст. -/
def fahrenheitMmHgWindow : AirConditioningControl :=
  ((AirConditioningControl.createUI 20 0 50).setTemperatureUnitIndex 2).setPressureUnitIndex 1

/-- A settings document holding only a `PressureUnit` element. -/
def pressureOnlyDocument : QDomDocument :=
  { rootTag := "Settings", children := [⟨"PressureUnit", [("index", "0")]⟩] }

/-- A settings document holding only a `TemperatureUnit` element. -/
def temperatureOnlyDocument : QDomDocument :=
  { rootTag := "Settings", children := [⟨"TemperatureUnit", [("index", "0")]⟩] }

/-- A settings document with no element below the root. -/
def emptyDocument : QDomDocument :=
  { rootTag := "Settings", children := [] }

namespace AirConditioningControl

/-- A theme is in effect: the window palette is `pal` and every rectangle, line and text item
of the scenes carries `color`. -/
def ThemeApplied (w : AirConditioningControl) (pal : QPalette) (color : QColor) : Prop :=
  w.palette = some pal ∧
    ∀ obj ∈ w.sceneItems, obj.type ≠ ItemType.Ellipse → obj.color = some color

instance (w : AirConditioningControl) (pal : QPalette) (color : QColor) :
    Decidable (ThemeApplied w pal color) := by
  unfold ThemeApplied
  infer_instance

/-- The dark theme is in effect and the button offers the light one. -/
def DarkState (w : AirConditioningControl) : Prop :=
  w.themeButton = "Светлая тема" ∧ ThemeApplied w darkPalette Qt.white

/-- The light theme is in effect and the button offers the dark one. -/
def LightState (w : AirConditioningControl) : Prop :=
  w.themeButton = "Темная тема" ∧ ThemeApplied w lightPalette Qt.black

instance (w : AirConditioningControl) : Decidable (DarkState w) := by
  unfold DarkState
  infer_instance

instance (w : AirConditioningControl) : Decidable (LightState w) := by
  unfold LightState
  infer_instance

/-- The `powered` flag of the specification, read off the power button: the label names the
action to switch to, so "Выключить" (turn off) shows while the power is on. -/
def powered (w : AirConditioningControl) : Bool :=
  w.powerButton == "Выключить"

end AirConditioningControl

/-! ## The temperature bar -/

/-- Fill ratio of the temperature bar: the height of the fill rectangle over the height of the
bar. -/
def AirConditioningControl.fillRatio (w : AirConditioningControl) : ℚ :=
  w.temperatureFillRect.height / w.temperatureRect.height

/-- A ratio clamped to [0, 1]. -/
def clampUnit (r : ℚ) : ℚ :=
  if r < 0 then 0 else if r > 1 then 1 else r

/-- Fill ratio of `setTemperature(value)` in the specification's words:
`(value - 16) / (30 - 16)`, clamped to [0, 1]. -/
def specFillRatio (value : Int) : ℚ :=
  clampUnit (((value : ℚ) - 16) / (30 - 16))

/-! ## Sequences of airflow moves -/

/-- The window after the clicks `ds` on the airflow buttons, in order. -/
def moveSequence (w : AirConditioningControl) (ds : List Direction) : AirConditioningControl :=
  ds.foldl moveAirflow w

/-! ## What the slots leave alone -/

namespace AirConditioningControl

theorem sameOutsideUnits_trans {a b c : AirConditioningControl}
    (hab : SameOutsideUnits a b) (hbc : SameOutsideUnits b c) : SameOutsideUnits a c := by
  obtain ⟨h1, h2, h3, h4, h5, h6, h7, h8, h9, h10⟩ := hab
  obtain ⟨k1, k2, k3, k4, k5, k6, k7, k8, k9, k10⟩ := hbc
  exact ⟨k1.trans h1, k2.trans h2, k3.trans h3, k4.trans h4, k5.trans h5, k6.trans h6,
    k7.trans h7, k8.trans h8, k9.trans h9, k10.trans h10⟩

theorem setTemperatureUnitIndex_same (w : AirConditioningControl) (index : Int) :
    SameOutsideUnits w (setTemperatureUnitIndex w index) ∧
      (setTemperatureUnitIndex w index).pressureUnitCombo = w.pressureUnitCombo ∧
      (setTemperatureUnitIndex w index).pressureLabel = w.pressureLabel ∧
      (setTemperatureUnitIndex w index).temperatureUnitCombo
        = w.temperatureUnitCombo.setCurrentIndex index := by
  by_cases h : (w.temperatureUnitCombo.setCurrentIndex index).currentIndex
      = w.temperatureUnitCombo.currentIndex
  · simp [setTemperatureUnitIndex, SameOutsideUnits, h]
  · simp [setTemperatureUnitIndex, SameOutsideUnits, h, updateTemperatureUnits, updateTemperature]

theorem setPressureUnitIndex_same (w : AirConditioningControl) (index : Int) :
    SameOutsideUnits w (setPressureUnitIndex w index) ∧
      (setPressureUnitIndex w index).temperatureUnitCombo = w.temperatureUnitCombo ∧
      (setPressureUnitIndex w index).temperatureTextItem = w.temperatureTextItem ∧
      (setPressureUnitIndex w index).temperatureFillRect = w.temperatureFillRect ∧
      (setPressureUnitIndex w index).pressureUnitCombo
        = w.pressureUnitCombo.setCurrentIndex index := by
  by_cases h : (w.pressureUnitCombo.setCurrentIndex index).currentIndex
      = w.pressureUnitCombo.currentIndex
  · simp [setPressureUnitIndex, SameOutsideUnits, h]
  · simp [setPressureUnitIndex, SameOutsideUnits, h, updatePressureUnits]

theorem loadSettingsFromXml_same (w : AirConditioningControl) (file : SettingsFile) :
    SameOutsideUnits w (loadSettingsFromXml w file) := by
  have hrefl : ∀ a : AirConditioningControl, SameOutsideUnits a a := fun a => by
    simp [SameOutsideUnits]
  cases file with
  | unreadable => exact hrefl w
  | malformed => exact hrefl w
  | document doc =>
    simp only [loadSettingsFromXml]
    cases doc.firstChildElement "TemperatureUnit" <;>
      cases doc.firstChildElement "PressureUnit" <;> simp only
    · exact hrefl w
    · exact (setPressureUnitIndex_same w _).1
    · exact (setTemperatureUnitIndex_same w _).1
    · exact sameOutsideUnits_trans (setTemperatureUnitIndex_same w _).1
        (setPressureUnitIndex_same _ _).1

theorem createUI_values (temperature pressure humidity : Int) :
    (createUI temperature pressure humidity).temperature = temperature ∧
      (createUI temperature pressure humidity).pressure = pressure ∧
      (createUI temperature pressure humidity).humidity = humidity := by
  simp [createUI, updateTemperature]

theorem construct_values (t p h : Int) (file : SettingsFile) :
    (construct t p h file).temperature = t ∧ (construct t p h file).pressure = p ∧
      (construct t p h file).humidity = h := by
  obtain ⟨h1, h2, h3, -⟩ := loadSettingsFromXml_same (createUI t p h) file
  obtain ⟨c1, c2, c3⟩ := createUI_values t p h
  exact ⟨h1.trans c1, h2.trans c2, h3.trans c3⟩

end AirConditioningControl

theorem clamp_eq_max_min (raw lo hi : Int) (h : lo ≤ hi) :
    max (min raw hi) lo = clamp raw lo hi := by
  unfold clamp
  split_ifs <;> omega

/-! ## C1 -/

/-- C1. Whatever the three line edits hold, the window `main` constructs stores
temperature = clamp(t, 16, 30), pressure = max(p, 0) and humidity = clamp(h, 0, 100) of the
integers t, p, h read from the dialog; each lies in its range; the inputs (40, -5, 150) give
(30, 0, 100) and (10, 5, -20) give (16, 5, 0). -/
theorem main_passes_clamped_values (d : InputDialog) (file : SettingsFile) :
    (QApplication.main d true file).map (fun w => (w.temperature, w.pressure, w.humidity))
        = some (clamp d.getTemperature 16 30, max d.getPressure 0, clamp d.getHumidity 0 100)
      ∧ (16 ≤ clamp d.getTemperature 16 30 ∧ clamp d.getTemperature 16 30 ≤ 30)
      ∧ 0 ≤ max d.getPressure 0
      ∧ (0 ≤ clamp d.getHumidity 0 100 ∧ clamp d.getHumidity 0 100 ≤ 100)
      ∧ (QApplication.main ⟨"40", "-5", "150"⟩ true file).map
          (fun w => (w.temperature, w.pressure, w.humidity)) = some (30, 0, 100)
      ∧ (QApplication.main ⟨"10", "5", "-20"⟩ true file).map
          (fun w => (w.temperature, w.pressure, w.humidity)) = some (16, 5, 0) := by
  have key : ∀ e : InputDialog,
      (QApplication.main e true file).map (fun w => (w.temperature, w.pressure, w.humidity))
        = some (clamp e.getTemperature 16 30, max e.getPressure 0, clamp e.getHumidity 0 100) := by
    intro e
    obtain ⟨h1, h2, h3⟩ := AirConditioningControl.construct_values
      (max (min e.getTemperature 30) 16) (max e.getPressure 0) (max (min e.getHumidity 100) 0) file
    simp only [QApplication.main, if_true, Option.map_some', h1, h2, h3]
    rw [clamp_eq_max_min _ 16 30 (by norm_num), clamp_eq_max_min _ 0 100 (by norm_num)]
  refine ⟨key d, ⟨?_, ?_⟩, le_max_right _ _, ⟨?_, ?_⟩, ?_, ?_⟩
  · unfold clamp; split_ifs <;> omega
  · unfold clamp; split_ifs <;> omega
  · unfold clamp; split_ifs <;> omega
  · unfold clamp; split_ifs <;> omega
  · rw [key]; decide
  · rw [key]; decide

/-! ## C2, C3: the airflow point -/

theorem upperRightWindow_point : upperRightWindow.point = ⟨150, -150⟩ := by
  simp [upperRightWindow, Function.iterate_succ, AirConditioningControl.movePointUp,
    AirConditioningControl.movePointRight, AirConditioningControl.createUI,
    AirConditioningControl.updateTemperature, QPointF.moveBy]

/-- C2. With the airflow point at (150, 150) of the plane the window draws (X to the right,
Y to the top), `moveAirflow(Right)` (`movePointRight`) and then `moveAirflow(Up)`
(`movePointUp`) leave the position unchanged at (150, 150): each of the two moves is refused
and the window is the same afterwards. -/
theorem right_then_up_keeps_corner (w : AirConditioningControl)
    (h : w.planePosition = (150, 150)) :
    w.movePointRight = w
    ∧ w.movePointUp = w
    ∧ w.movePointRight.movePointUp = w
    ∧ moveAirflow (moveAirflow w Direction.Right) Direction.Up = w
    ∧ (w.movePointRight.movePointUp).planePosition = (150, 150) := by
  simp only [AirConditioningControl.planePosition, Prod.mk.injEq] at h
  obtain ⟨hx, hy⟩ := h
  have hr : w.movePointRight = w := by
    simp [AirConditioningControl.movePointRight, hx]
  have hu : w.movePointUp = w := by
    have hyv : w.point.y = -150 := by omega
    simp [AirConditioningControl.movePointUp, hyv]
  refine ⟨hr, hu, ?_, ?_, ?_⟩
  · rw [hr, hu]
  · simp only [moveAirflow]
    rw [hr, hu]
  · rw [hr, hu]
    simp only [AirConditioningControl.planePosition, Prod.mk.injEq]
    exact ⟨hx, hy⟩

theorem right_then_up_keeps_corner_witness :
    upperRightWindow.planePosition = (150, 150)
    ∧ upperRightWindow.movePointRight.movePointUp = upperRightWindow
    ∧ (upperRightWindow.movePointRight.movePointUp).planePosition = (150, 150) :=
  have hp : upperRightWindow.planePosition = (150, 150) := by
    simp [AirConditioningControl.planePosition, upperRightWindow_point]
  ⟨hp, (right_then_up_keeps_corner upperRightWindow hp).2.2.1,
    (right_then_up_keeps_corner upperRightWindow hp).2.2.2.2⟩

/-- One move keeps the point on the grid: inside the bounds, both coordinates multiples
of 10. -/
theorem moveAirflow_grid (w : AirConditioningControl) (d : Direction)
    (hb : InBounds w.point) (hx : 10 ∣ w.point.x) (hy : 10 ∣ w.point.y) :
    InBounds (moveAirflow w d).point ∧ 10 ∣ (moveAirflow w d).point.x ∧
      10 ∣ (moveAirflow w d).point.y := by
  obtain ⟨h1, h2, h3, h4⟩ := hb
  cases d <;>
    simp only [moveAirflow, AirConditioningControl.movePointUp,
      AirConditioningControl.movePointDown, AirConditioningControl.movePointLeft,
      AirConditioningControl.movePointRight, InBounds, QPointF.moveBy] <;>
    split_ifs <;>
    (refine ⟨⟨?_, ?_, ?_, ?_⟩, ?_, ?_⟩ <;> dsimp only <;> omega)

theorem moveSequence_grid (ds : List Direction) :
    ∀ w : AirConditioningControl, InBounds w.point → 10 ∣ w.point.x → 10 ∣ w.point.y →
      InBounds (moveSequence w ds).point ∧ 10 ∣ (moveSequence w ds).point.x ∧
        10 ∣ (moveSequence w ds).point.y := by
  induction ds with
  | nil => exact fun w hb hx hy => ⟨hb, hx, hy⟩
  | cons d rest ih =>
    intro w hb hx hy
    obtain ⟨hb1, hx1, hy1⟩ := moveAirflow_grid w d hb hx hy
    exact ih (moveAirflow w d) hb1 hx1 hy1

theorem construct_point (t p h : Int) (file : SettingsFile) :
    (AirConditioningControl.construct t p h file).point = ⟨0, 0⟩ := by
  obtain ⟨-, -, -, -, -, -, -, -, -, hpt⟩ :=
    AirConditioningControl.loadSettingsFromXml_same (AirConditioningControl.createUI t p h) file
  exact hpt.trans (by simp [AirConditioningControl.createUI,
    AirConditioningControl.updateTemperature])

theorem updateTemperature_magnitude (w : AirConditioningControl) (v : Int) :
    (w.updateTemperature v).temperatureTextItem.magnitude
      = (TemperatureUnit.ofIndex w.temperatureUnitCombo.currentIndex).map
          (convertTemperature v) := by
  simp only [AirConditioningControl.updateTemperature, TemperatureUnit.ofIndex]
  split
  · next h => simp [h, QText.magnitude, convertTemperature]
  · next h => simp [h, QText.magnitude, convertTemperature]
  · next h => simp [h, QText.magnitude, convertTemperature]; ring
  · next h0 h1 h2 => simp [if_neg h0, if_neg h1, if_neg h2, QText.magnitude]

theorem updatePressureUnits_magnitude (w : AirConditioningControl) :
    w.updatePressureUnits.pressureLabel.magnitude
      = (PressureUnit.ofIndex w.pressureUnitCombo.currentIndex).map
          (convertPressure w.pressure) := by
  simp only [AirConditioningControl.updatePressureUnits, PressureUnit.ofIndex]
  split
  · next h => simp [h, QText.magnitude, convertPressure]
  · next h => simp [h, QText.magnitude, convertPressure]
  · next h0 h1 => simp [if_neg h0, if_neg h1, QText.magnitude]

/-- C4. For every integer Celsius value v and unit index u, the number `updateTemperature`
puts in the temperature text is `convertTemperature(v, unit u)`: v itself for u = 0,
v + 273.15 for u = 1 and v × 9/5 + 32 for u = 2, in exact rational arithmetic (17 gives
62.6 °F, not a truncated value); value 0 gives 0, 273.15 and 32. Selecting °F in a window
built for 17 °C shows 62.6. -/
theorem updateTemperature_displays_converted (w : AirConditioningControl) (v u : Int) :
    ((w.withTemperatureUnitIndex u).updateTemperature v).temperatureTextItem.magnitude
        = (TemperatureUnit.ofIndex u).map (convertTemperature v)
      ∧ ((w.withTemperatureUnitIndex 0).updateTemperature v).temperatureTextItem.magnitude
          = some (v : ℚ)
      ∧ ((w.withTemperatureUnitIndex 1).updateTemperature v).temperatureTextItem.magnitude
          = some ((v : ℚ) + 273.15)
      ∧ ((w.withTemperatureUnitIndex 2).updateTemperature v).temperatureTextItem.magnitude
          = some ((v : ℚ) * (9 / 5) + 32)
      ∧ ((w.withTemperatureUnitIndex 0).updateTemperature 0).temperatureTextItem.magnitude
          = some 0
      ∧ ((w.withTemperatureUnitIndex 1).updateTemperature 0).temperatureTextItem.magnitude
          = some 273.15
      ∧ ((w.withTemperatureUnitIndex 2).updateTemperature 0).temperatureTextItem.magnitude
          = some 32
      ∧ ((w.withTemperatureUnitIndex 2).updateTemperature 17).temperatureTextItem.magnitude
          = some 62.6
      ∧ ((AirConditioningControl.createUI 17 0 0).setTemperatureUnitIndex 2).temperatureTextItem
          = QText.arg "Температура: %1°F" 62.6 := by
  have key : ∀ (x i : Int),
      ((w.withTemperatureUnitIndex i).updateTemperature x).temperatureTextItem.magnitude
        = (TemperatureUnit.ofIndex i).map (convertTemperature x) := fun x i => by
    rw [updateTemperature_magnitude]; rfl
  refine ⟨key v u, ?_, ?_, ?_, ?_, ?_, ?_, ?_, ?_⟩
  · rw [key]; simp [TemperatureUnit.ofIndex, convertTemperature]
  · rw [key]; simp [TemperatureUnit.ofIndex, convertTemperature]
  · rw [key]; simp [TemperatureUnit.ofIndex, convertTemperature]
  · rw [key]; simp [TemperatureUnit.ofIndex, convertTemperature]
  · rw [key]; simp [TemperatureUnit.ofIndex, convertTemperature]
  · rw [key]; simp [TemperatureUnit.ofIndex, convertTemperature]
  · rw [key]; simp [TemperatureUnit.ofIndex, convertTemperature]; norm_num
  · simp [AirConditioningControl.createUI, AirConditioningControl.setTemperatureUnitIndex,
      AirConditioningControl.updateTemperatureUnits, AirConditioningControl.updateTemperature,
      QComboBox.setCurrentIndex, QComboBox.addItem, QComboBox.new, QSlider.setRange,
      QSlider.setValue, QSlider.new]
    norm_num

/-- C5. For every stored pressure p and unit index u, the number `updatePressureUnits` puts
in the pressure label is `convertPressure(p, unit u)`: p itself for u = 0 and p × 0.00750062
for u = 1; p = 100000 gives 100000 Pa and 750.062 mmHg. Selecting mmHg in a window built for
100000 Pa shows 750.062. -/
theorem updatePressureUnits_displays_converted (w : AirConditioningControl) (p u : Int) :
    (w.withPressureUnitIndex p u).updatePressureUnits.pressureLabel.magnitude
        = (PressureUnit.ofIndex u).map (convertPressure p)
      ∧ (w.withPressureUnitIndex p 0).updatePressureUnits.pressureLabel.magnitude
          = some (p : ℚ)
      ∧ (w.withPressureUnitIndex p 1).updatePressureUnits.pressureLabel.magnitude
          = some ((p : ℚ) * 0.00750062)
      ∧ (w.withPressureUnitIndex 100000 0).updatePressureUnits.pressureLabel.magnitude
          = some 100000
      ∧ (w.withPressureUnitIndex 100000 1).updatePressureUnits.pressureLabel.magnitude
          = some 750.062
      ∧ ((AirConditioningControl.createUI 20 100000 50).setPressureUnitIndex 1).pressureLabel
          = QText.arg "%1 мм рт. ст." 750.062 := by
  have key : ∀ (x i : Int),
      (w.withPressureUnitIndex x i).updatePressureUnits.pressureLabel.magnitude
        = (PressureUnit.ofIndex i).map (convertPressure x) := fun x i => by
    rw [updatePressureUnits_magnitude]; rfl
  refine ⟨key p u, ?_, ?_, ?_, ?_, ?_⟩
  · rw [key]; simp [PressureUnit.ofIndex, convertPressure]
  · rw [key]; simp [PressureUnit.ofIndex, convertPressure]
  · rw [key]; simp [PressureUnit.ofIndex, convertPressure]
  · rw [key]; simp [PressureUnit.ofIndex, convertPressure]; norm_num
  · simp [AirConditioningControl.createUI, AirConditioningControl.setPressureUnitIndex,
      AirConditioningControl.updatePressureUnits, AirConditioningControl.updateTemperature,
      QComboBox.setCurrentIndex, QComboBox.addItem, QComboBox.new]
    norm_num

/-! ## C6, C7: the settings file -/

theorem toInt_number_of_small (i : Int) (h : i = 0 ∨ i = 1 ∨ i = 2) :
    QString.toInt (QString.number i) = i := by
  rcases h with h | h | h <;> subst h <;> decide

theorem settingsDocument_temperatureUnit (s : AirConditioningControl) :
    (s.settingsDocument.firstChildElement "TemperatureUnit").map
        (fun e => e.attribute "index")
      = some (QString.number s.temperatureUnitCombo.currentIndex) := by
  rfl

theorem settingsDocument_pressureUnit (s : AirConditioningControl) :
    (s.settingsDocument.firstChildElement "PressureUnit").map
        (fun e => e.attribute "index")
      = some (QString.number s.pressureUnitCombo.currentIndex) := by
  rfl

theorem loadSettingsFromXml_document_indices (w : AirConditioningControl) (doc : QDomDocument) :
    (w.loadSettingsFromXml (SettingsFile.document doc)).temperatureUnitCombo
        = (match doc.firstChildElement "TemperatureUnit" with
          | some e => w.temperatureUnitCombo.setCurrentIndex (QString.toInt (e.attribute "index"))
          | none => w.temperatureUnitCombo)
      ∧ (w.loadSettingsFromXml (SettingsFile.document doc)).pressureUnitCombo
        = (match doc.firstChildElement "PressureUnit" with
          | some e => w.pressureUnitCombo.setCurrentIndex (QString.toInt (e.attribute "index"))
          | none => w.pressureUnitCombo) := by
  simp only [AirConditioningControl.loadSettingsFromXml]
  cases doc.firstChildElement "TemperatureUnit" <;>
    cases doc.firstChildElement "PressureUnit" <;> simp only
  · first | exact ⟨rfl, rfl⟩ | simp
  · exact ⟨(AirConditioningControl.setPressureUnitIndex_same w _).2.1,
      (AirConditioningControl.setPressureUnitIndex_same w _).2.2.2.2⟩
  · exact ⟨(AirConditioningControl.setTemperatureUnitIndex_same w _).2.2.2,
      (AirConditioningControl.setTemperatureUnitIndex_same w _).2.1⟩
  · refine ⟨?_, ?_⟩
    · rw [(AirConditioningControl.setPressureUnitIndex_same _ _).2.1]
      exact (AirConditioningControl.setTemperatureUnitIndex_same w _).2.2.2
    · rw [(AirConditioningControl.setPressureUnitIndex_same _ _).2.2.2.2,
        (AirConditioningControl.setTemperatureUnitIndex_same w _).2.1]

theorem createUI_combos (t p h : Int) :
    (AirConditioningControl.createUI t p h).temperatureUnitCombo = ⟨["°C", "K", "°F"], 0⟩ ∧
      (AirConditioningControl.createUI t p h).pressureUnitCombo = ⟨["Па", "мм рт. ст."], 0⟩ := by
  simp [AirConditioningControl.createUI, AirConditioningControl.updateTemperature,
    QComboBox.addItem, QComboBox.new]

/-- C6. Settings round trip: when the window being closed has a temperature-unit index in
{0, 1, 2} and a pressure-unit index in {0, 1}, the document `saveSettingsToXml` writes, read
back by `loadSettingsFromXml` into any window whose combo boxes hold the three temperature
units and the two pressure units, sets both selections to exactly the saved indices; in
particular the window constructed on the next start has them. -/
theorem settings_round_trip (s w : AirConditioningControl) (file : SettingsFile) (t p h : Int)
    (hst : s.temperatureUnitCombo.currentIndex = 0 ∨ s.temperatureUnitCombo.currentIndex = 1 ∨
      s.temperatureUnitCombo.currentIndex = 2)
    (hsp : s.pressureUnitCombo.currentIndex = 0 ∨ s.pressureUnitCombo.currentIndex = 1)
    (hwt : w.temperatureUnitCombo.items.length = 3)
    (hwp : w.pressureUnitCombo.items.length = 2) :
    ((w.loadSettingsFromXml (s.saveSettingsToXml true file)).temperatureUnitCombo.currentIndex
        = s.temperatureUnitCombo.currentIndex
      ∧ (w.loadSettingsFromXml (s.saveSettingsToXml true file)).pressureUnitCombo.currentIndex
        = s.pressureUnitCombo.currentIndex)
    ∧ ((AirConditioningControl.construct t p h
          (s.saveSettingsToXml true file)).temperatureUnitCombo.currentIndex
        = s.temperatureUnitCombo.currentIndex
      ∧ (AirConditioningControl.construct t p h
          (s.saveSettingsToXml true file)).pressureUnitCombo.currentIndex
        = s.pressureUnitCombo.currentIndex) := by
  have key : ∀ v : AirConditioningControl, v.temperatureUnitCombo.items.length = 3 →
      v.pressureUnitCombo.items.length = 2 →
      (v.loadSettingsFromXml (s.saveSettingsToXml true file)).temperatureUnitCombo.currentIndex
          = s.temperatureUnitCombo.currentIndex
        ∧ (v.loadSettingsFromXml (s.saveSettingsToXml true file)).pressureUnitCombo.currentIndex
          = s.pressureUnitCombo.currentIndex := by
    intro v hvt hvp
    have ht := settingsDocument_temperatureUnit s
    have hp := settingsDocument_pressureUnit s
    obtain ⟨h1, h2⟩ := loadSettingsFromXml_document_indices v s.settingsDocument
    simp only [AirConditioningControl.saveSettingsToXml, if_true]
    rw [h1, h2]
    cases hte : s.settingsDocument.firstChildElement "TemperatureUnit" with
    | none => rw [hte] at ht; simp at ht
    | some e =>
      cases hpe : s.settingsDocument.firstChildElement "PressureUnit" with
      | none => rw [hpe] at hp; simp at hp
      | some e1 =>
        rw [hte] at ht
        rw [hpe] at hp
        simp only [Option.map_some', Option.some.injEq] at ht hp
        simp only [ht, hp, QComboBox.setCurrentIndex, hvt, hvp,
          toInt_number_of_small _ hst, toInt_number_of_small _ (hsp.imp_right Or.inl)]
        constructor
        · rw [if_pos]
          rcases hst with h | h | h <;> rw [h] <;> decide
        · rw [if_pos]
          rcases hsp with h | h <;> rw [h] <;> decide
  refine ⟨key w hwt hwp, ?_⟩
  obtain ⟨c1, c2⟩ := createUI_combos t p h
  exact key _ (by rw [c1]; rfl) (by rw [c2]; rfl)

theorem settings_round_trip_witness :
    (AirConditioningControl.construct 25 5 60
        (fahrenheitMmHgWindow.saveSettingsToXml true SettingsFile.unreadable)
      ).temperatureUnitCombo.currentIndex = 2
    ∧ (AirConditioningControl.construct 25 5 60
        (fahrenheitMmHgWindow.saveSettingsToXml true SettingsFile.unreadable)
      ).pressureUnitCombo.currentIndex = 1 := by
  have hs : fahrenheitMmHgWindow.temperatureUnitCombo.currentIndex = 2 := by decide
  have hp : fahrenheitMmHgWindow.pressureUnitCombo.currentIndex = 1 := by decide
  have h := settings_round_trip fahrenheitMmHgWindow (AirConditioningControl.createUI 25 5 60)
    SettingsFile.unreadable 25 5 60 (Or.inr (Or.inr hs)) (Or.inr hp) (by decide) (by decide)
  rw [hs, hp] at h
  exact h.2

/-- C7. `loadSettingsFromXml` is total and leaves alone what it has no data for: with the
file absent or unparsable the window is unchanged; with a document lacking the
`TemperatureUnit` element the temperature-unit selection is unchanged, with one lacking the
`PressureUnit` element the pressure-unit selection is unchanged, whatever the other element
holds; with both lacking the window is unchanged. -/
theorem loadSettingsFromXml_keeps_missing (w : AirConditioningControl) (doc : QDomDocument) :
    w.loadSettingsFromXml SettingsFile.unreadable = w
    ∧ w.loadSettingsFromXml SettingsFile.malformed = w
    ∧ (doc.firstChildElement "TemperatureUnit" = none →
        (w.loadSettingsFromXml (SettingsFile.document doc)).temperatureUnitCombo
          = w.temperatureUnitCombo)
    ∧ (doc.firstChildElement "PressureUnit" = none →
        (w.loadSettingsFromXml (SettingsFile.document doc)).pressureUnitCombo
          = w.pressureUnitCombo)
    ∧ (doc.firstChildElement "TemperatureUnit" = none →
        doc.firstChildElement "PressureUnit" = none →
        w.loadSettingsFromXml (SettingsFile.document doc) = w) := by
  obtain ⟨h1, h2⟩ := loadSettingsFromXml_document_indices w doc
  refine ⟨rfl, rfl, ?_, ?_, ?_⟩
  · intro ht
    rw [h1, ht]
  · intro hp
    rw [h2, hp]
  · intro ht hp
    simp only [AirConditioningControl.loadSettingsFromXml, ht, hp]

theorem loadSettingsFromXml_keeps_missing_witness :
    (fahrenheitMmHgWindow.loadSettingsFromXml
        (SettingsFile.document pressureOnlyDocument)).temperatureUnitCombo.currentIndex = 2
    ∧ (fahrenheitMmHgWindow.loadSettingsFromXml
        (SettingsFile.document temperatureOnlyDocument)).pressureUnitCombo.currentIndex = 1
    ∧ fahrenheitMmHgWindow.loadSettingsFromXml (SettingsFile.document emptyDocument)
        = fahrenheitMmHgWindow := by
  refine ⟨?_, ?_, ?_⟩
  · rw [(loadSettingsFromXml_keeps_missing fahrenheitMmHgWindow pressureOnlyDocument).2.2.1
      (by decide)]
    decide
  · rw [(loadSettingsFromXml_keeps_missing fahrenheitMmHgWindow temperatureOnlyDocument).2.2.2.1
      (by decide)]
    decide
  · exact (loadSettingsFromXml_keeps_missing fahrenheitMmHgWindow emptyDocument).2.2.2.2
      (by decide) (by decide)

/-! ## C8, C9: the theme -/

namespace AirConditioningControl

theorem toggleTheme_of_ne (w : AirConditioningControl) (h : w.themeButton ≠ "Светлая тема") :
    w.toggleTheme = applyDarkTheme { w with themeButton := "Светлая тема" } := by
  simp [toggleTheme, h]

theorem toggleTheme_of_eq (w : AirConditioningControl) (h : w.themeButton = "Светлая тема") :
    w.toggleTheme = applyLightTheme { w with themeButton := "Темная тема" } := by
  simp [toggleTheme, h]

theorem setItemColor_type (c : QColor) (obj : SceneItem) : (setItemColor c obj).type = obj.type := by
  unfold setItemColor
  split <;> rfl

theorem setItemColor_color (c : QColor) (obj : SceneItem) (h : obj.type ≠ ItemType.Ellipse) :
    (setItemColor c obj).color = some c := by
  unfold setItemColor
  cases ht : obj.type <;> simp_all

theorem setItemColor_setItemColor (c c1 : QColor) (obj : SceneItem) :
    setItemColor c (setItemColor c1 obj) = setItemColor c obj := by
  obtain ⟨ty, col⟩ := obj
  cases ty <;> rfl

theorem setItemColor_of_colored (c : QColor) (obj : SceneItem)
    (h : obj.type ≠ ItemType.Ellipse → obj.color = some c) : setItemColor c obj = obj := by
  obtain ⟨ty, col⟩ := obj
  cases ty <;> simp_all [setItemColor]

theorem map_setItemColor_of_colored (c : QColor) (items : List SceneItem)
    (h : ∀ obj ∈ items, obj.type ≠ ItemType.Ellipse → obj.color = some c) :
    items.map (setItemColor c) = items := by
  induction items with
  | nil => rfl
  | cons obj rest ih =>
    rw [List.map_cons, setItemColor_of_colored c obj (h obj (List.mem_cons_self _ _)),
      ih (fun o ho => h o (List.mem_cons_of_mem _ ho))]

theorem themeApplied_applyDarkTheme (w : AirConditioningControl) :
    ThemeApplied (applyDarkTheme w) darkPalette Qt.white := by
  refine ⟨rfl, ?_⟩
  intro obj hobj hty
  simp only [applyDarkTheme, updateSceneColors, List.mem_map] at hobj
  obtain ⟨o, _, rfl⟩ := hobj
  rw [setItemColor_type] at hty
  exact setItemColor_color _ _ hty

theorem themeApplied_applyLightTheme (w : AirConditioningControl) :
    ThemeApplied (applyLightTheme w) lightPalette Qt.black := by
  refine ⟨rfl, ?_⟩
  intro obj hobj hty
  simp only [applyLightTheme, updateSceneColors, List.mem_map] at hobj
  obtain ⟨o, _, rfl⟩ := hobj
  rw [setItemColor_type] at hty
  exact setItemColor_color _ _ hty

theorem construct_buttons (t p h : Int) (file : SettingsFile) :
    (construct t p h file).powerButton = "Включить" ∧
      (construct t p h file).themeButton = "Темная тема" ∧
      (construct t p h file).palette = none ∧
      (construct t p h file).sceneItems =
        [⟨ItemType.Rect, none⟩, ⟨ItemType.Rect, none⟩, ⟨ItemType.Text, none⟩,
         ⟨ItemType.Rect, none⟩, ⟨ItemType.Rect, none⟩, ⟨ItemType.Text, none⟩,
         ⟨ItemType.Line, none⟩, ⟨ItemType.Line, none⟩, ⟨ItemType.Ellipse, none⟩,
         ⟨ItemType.Text, none⟩, ⟨ItemType.Text, none⟩] := by
  obtain ⟨-, -, -, -, -, h6, h7, h8, h9, -⟩ := loadSettingsFromXml_same (createUI t p h) file
  refine ⟨h6.trans ?_, h7.trans ?_, h8.trans ?_, h9.trans ?_⟩ <;>
    simp [createUI, updateTemperature]

end AirConditioningControl

/-- C8. In the freshly constructed window the theme button reads "Темная тема" and no theme
has been applied; the first `toggleTheme` takes the `applyDarkTheme` branch: the button then
reads "Светлая тема", the palette is the dark one, and every rectangle, line and text item of
the scenes is white. The light theme is not applied. -/
theorem first_toggleTheme_applies_dark (t p h : Int) (file : SettingsFile) :
    (AirConditioningControl.construct t p h file).themeButton = "Темная тема"
    ∧ (AirConditioningControl.construct t p h file).palette = none
    ∧ (AirConditioningControl.construct t p h file).toggleTheme
        = AirConditioningControl.applyDarkTheme
            { AirConditioningControl.construct t p h file with themeButton := "Светлая тема" }
    ∧ (AirConditioningControl.construct t p h file).toggleTheme.themeButton = "Светлая тема"
    ∧ (AirConditioningControl.construct t p h file).toggleTheme.palette
        = some AirConditioningControl.darkPalette
    ∧ (AirConditioningControl.construct t p h file).toggleTheme.sceneItems =
        [⟨ItemType.Rect, some Qt.white⟩, ⟨ItemType.Rect, some Qt.white⟩,
         ⟨ItemType.Text, some Qt.white⟩, ⟨ItemType.Rect, some Qt.white⟩,
         ⟨ItemType.Rect, some Qt.white⟩, ⟨ItemType.Text, some Qt.white⟩,
         ⟨ItemType.Line, some Qt.white⟩, ⟨ItemType.Line, some Qt.white⟩,
         ⟨ItemType.Ellipse, none⟩, ⟨ItemType.Text, some Qt.white⟩,
         ⟨ItemType.Text, some Qt.white⟩]
    ∧ AirConditioningControl.DarkState (AirConditioningControl.construct t p h file).toggleTheme
    ∧ ¬ AirConditioningControl.LightState
        (AirConditioningControl.construct t p h file).toggleTheme
    ∧ (AirConditioningControl.construct t p h file).toggleTheme.palette
        ≠ some AirConditioningControl.lightPalette := by
  obtain ⟨-, hb, hp, hs⟩ := AirConditioningControl.construct_buttons t p h file
  have hne : (AirConditioningControl.construct t p h file).themeButton ≠ "Светлая тема" := by
    rw [hb]; decide
  have ht := AirConditioningControl.toggleTheme_of_ne _ hne
  refine ⟨hb, hp, ht, ?_, ?_, ?_, ?_, ?_, ?_⟩
  · rw [ht]; rfl
  · rw [ht]; rfl
  · rw [ht]
    simp only [AirConditioningControl.applyDarkTheme, AirConditioningControl.updateSceneColors, hs]
    rfl
  · rw [ht]
    exact ⟨rfl, AirConditioningControl.themeApplied_applyDarkTheme _⟩
  · rw [ht]
    intro hl
    have hlabel : ("Светлая тема" : String) = "Темная тема" := hl.1
    exact absurd hlabel (by decide)
  · rw [ht]
    intro hpal
    have hsome : some AirConditioningControl.darkPalette
        = some AirConditioningControl.lightPalette := hpal
    exact absurd hsome (by decide)

namespace AirConditioningControl

theorem map_setItemColor_twice (c c1 : QColor) (items : List SceneItem)
    (h : ∀ obj ∈ items, obj.type ≠ ItemType.Ellipse → obj.color = some c) :
    (items.map (setItemColor c1)).map (setItemColor c) = items := by
  have hcomp : setItemColor c ∘ setItemColor c1 = setItemColor c :=
    funext (setItemColor_setItemColor c c1)
  rw [List.map_map, hcomp]
  exact map_setItemColor_of_colored c items h

theorem toggleTheme_twice_of_dark (w : AirConditioningControl) (h : DarkState w) :
    w.toggleTheme.toggleTheme = w ∧ LightState w.toggleTheme := by
  obtain ⟨hb, hp, hitems⟩ := h
  have h1 := toggleTheme_of_eq w hb
  have hlabel : w.toggleTheme.themeButton = "Темная тема" := by rw [h1]; rfl
  have h2 := toggleTheme_of_ne w.toggleTheme (by rw [hlabel]; decide)
  refine ⟨?_, hlabel, ?_⟩
  · rw [h2, h1]
    obtain ⟨a1, a2, a3, a4, a5, a6, a7, a8, a9, a10, a11, a12, a13, a14, a15⟩ := w
    simp only at hb hp hitems
    simp only [applyDarkTheme, applyLightTheme, updateSceneColors,
      map_setItemColor_twice Qt.white Qt.black a14 hitems, hb, hp]
  · rw [h1]
    exact themeApplied_applyLightTheme _

theorem toggleTheme_twice_of_light (w : AirConditioningControl) (h : LightState w) :
    w.toggleTheme.toggleTheme = w ∧ DarkState w.toggleTheme := by
  obtain ⟨hb, hp, hitems⟩ := h
  have h1 := toggleTheme_of_ne w (by rw [hb]; decide)
  have hlabel : w.toggleTheme.themeButton = "Светлая тема" := by rw [h1]; rfl
  have h2 := toggleTheme_of_eq w.toggleTheme hlabel
  refine ⟨?_, hlabel, ?_⟩
  · rw [h2, h1]
    obtain ⟨a1, a2, a3, a4, a5, a6, a7, a8, a9, a10, a11, a12, a13, a14, a15⟩ := w
    simp only at hb hp hitems
    simp only [applyDarkTheme, applyLightTheme, updateSceneColors,
      map_setItemColor_twice Qt.black Qt.white a14 hitems, hb, hp]
  · rw [h1]
    exact themeApplied_applyDarkTheme _

theorem toggleTheme_themeButton_ne (w : AirConditioningControl) :
    w.toggleTheme.themeButton ≠ w.themeButton := by
  by_cases hb : w.themeButton = "Светлая тема"
  · rw [toggleTheme_of_eq w hb, hb]
    intro hlabel
    have hlit : ("Темная тема" : String) = "Светлая тема" := hlabel
    exact absurd hlit (by decide)
  · rw [toggleTheme_of_ne w hb]
    intro hlabel
    exact hb hlabel.symm

end AirConditioningControl

/-- After the first click on the theme button of a freshly built window the dark theme is in
effect. -/
theorem darkState_after_first_toggle :
    AirConditioningControl.DarkState (AirConditioningControl.createUI 20 0 50).toggleTheme := by
  decide

/-- C9. In every state in which a theme is in effect (button "Светлая тема" with the dark
theme applied, or "Темная тема" with the light theme applied), two calls of `toggleTheme`
give back the same window, in particular the button label, the palette and the colours of the
scene items; one call always changes the label, the palette and the colour of every
rectangle, line and text item, switching between the two states. -/
theorem toggleTheme_involution (w : AirConditioningControl)
    (h : AirConditioningControl.DarkState w ∨ AirConditioningControl.LightState w) :
    w.toggleTheme.toggleTheme = w
    ∧ w.toggleTheme.themeButton ≠ w.themeButton
    ∧ w.toggleTheme.palette ≠ w.palette
    ∧ ((AirConditioningControl.DarkState w ∧ AirConditioningControl.LightState w.toggleTheme) ∨
        (AirConditioningControl.LightState w ∧ AirConditioningControl.DarkState w.toggleTheme))
    ∧ (∀ obj ∈ w.toggleTheme.sceneItems, obj.type ≠ ItemType.Ellipse →
        ∀ obj1 ∈ w.sceneItems, obj1.type ≠ ItemType.Ellipse → obj.color ≠ obj1.color) := by
  rcases h with hd | hl
  · obtain ⟨h2, hl⟩ := AirConditioningControl.toggleTheme_twice_of_dark w hd
    refine ⟨h2, AirConditioningControl.toggleTheme_themeButton_ne w, ?_, Or.inl ⟨hd, hl⟩, ?_⟩
    · rw [hl.2.1, hd.2.1]; decide
    · intro obj hobj hty obj1 hobj1 hty1
      rw [hl.2.2 obj hobj hty, hd.2.2 obj1 hobj1 hty1]; decide
  · obtain ⟨h2, hd⟩ := AirConditioningControl.toggleTheme_twice_of_light w hl
    refine ⟨h2, AirConditioningControl.toggleTheme_themeButton_ne w, ?_, Or.inr ⟨hl, hd⟩, ?_⟩
    · rw [hd.2.1, hl.2.1]; decide
    · intro obj hobj hty obj1 hobj1 hty1
      rw [hd.2.2 obj hobj hty, hl.2.2 obj1 hobj1 hty1]; decide

theorem toggleTheme_involution_witness :
    (AirConditioningControl.createUI 20 0 50).toggleTheme.toggleTheme.toggleTheme
        = (AirConditioningControl.createUI 20 0 50).toggleTheme
    ∧ (AirConditioningControl.createUI 20 0 50).toggleTheme.toggleTheme.themeButton
        ≠ (AirConditioningControl.createUI 20 0 50).toggleTheme.themeButton :=
  ⟨(toggleTheme_involution _ (Or.inl darkState_after_first_toggle)).1,
    (toggleTheme_involution _ (Or.inl darkState_after_first_toggle)).2.1⟩

/-! ## C10: the power button -/

/-- C10. The freshly constructed window shows "Включить" (power off); `togglePower` flips
the flag, keeps the label within the two states, and from either label state two calls of
`togglePower` give back the same window, hence the same label and the same flag. -/
theorem togglePower_involution (w : AirConditioningControl) (t p hum : Int)
    (file : SettingsFile)
    (h : w.powerButton = "Включить" ∨ w.powerButton = "Выключить") :
    (AirConditioningControl.construct t p hum file).powerButton = "Включить"
    ∧ (AirConditioningControl.construct t p hum file).powered = false
    ∧ (AirConditioningControl.construct t p hum file).togglePower.powerButton = "Выключить"
    ∧ w.togglePower.powered = !w.powered
    ∧ (w.togglePower.powerButton = "Включить" ∨ w.togglePower.powerButton = "Выключить")
    ∧ w.togglePower.togglePower = w
    ∧ w.togglePower.togglePower.powerButton = w.powerButton
    ∧ w.togglePower.togglePower.powered = w.powered := by
  obtain ⟨hb, -⟩ := AirConditioningControl.construct_buttons t p hum file
  have hflip : w.togglePower.powered = !w.powered ∧
      (w.togglePower.powerButton = "Включить" ∨ w.togglePower.powerButton = "Выключить") ∧
      w.togglePower.togglePower = w := by
    obtain ⟨a1, a2, a3, a4, a5, a6, a7, a8, a9, a10, a11, a12, a13, a14, a15⟩ := w
    simp only at h
    rcases h with h | h <;> subst h <;>
      simp [AirConditioningControl.togglePower, AirConditioningControl.powered]
  refine ⟨hb, ?_, ?_, hflip.1, hflip.2.1, hflip.2.2, ?_, ?_⟩
  · simp [AirConditioningControl.powered, hb]
  · simp [AirConditioningControl.togglePower, hb]
  · rw [hflip.2.2]
  · rw [hflip.2.2]

theorem togglePower_involution_witness :
    (AirConditioningControl.createUI 20 0 50).togglePower.togglePower
        = AirConditioningControl.createUI 20 0 50
    ∧ (AirConditioningControl.createUI 20 0 50).togglePower.powered = true :=
  ⟨(togglePower_involution (AirConditioningControl.createUI 20 0 50) 20 0 50
      SettingsFile.unreadable (Or.inl (by decide))).2.2.2.2.2.1,
    by decide⟩

/-! ## C11: the temperature bar -/

theorem updateTemperature_fillRatio (w : AirConditioningControl) (v : Int)
    (hh : w.temperatureRect.height ≠ 0) :
    (w.updateTemperature v).fillRatio
      = ((v : ℚ) - w.temperatureSlider.minimum)
          / ((w.temperatureSlider.maximum : ℚ) - w.temperatureSlider.minimum) := by
  simp only [AirConditioningControl.fillRatio, AirConditioningControl.updateTemperature]
  rw [mul_div_assoc, div_self hh, mul_one]

theorem construct_bar (t p h : Int) (file : SettingsFile) :
    (AirConditioningControl.construct t p h file).temperatureSlider
        = ⟨16, 30, max 16 (min t 30)⟩
      ∧ (AirConditioningControl.construct t p h file).temperatureRect = ⟨0, 0, 300, 100⟩ := by
  obtain ⟨-, -, -, h4, h5, -⟩ :=
    AirConditioningControl.loadSettingsFromXml_same (AirConditioningControl.createUI t p h) file
  refine ⟨h4.trans ?_, h5.trans ?_⟩ <;>
    simp [AirConditioningControl.createUI, AirConditioningControl.updateTemperature,
      QSlider.setRange, QSlider.setValue, QSlider.new]

theorem setTemperatureUnitIndex_fillRatio (w : AirConditioningControl) (index : Int)
    (hh : w.temperatureRect.height ≠ 0)
    (hbar : w.fillRatio = ((w.temperatureSlider.value : ℚ) - w.temperatureSlider.minimum)
      / ((w.temperatureSlider.maximum : ℚ) - w.temperatureSlider.minimum)) :
    (w.setTemperatureUnitIndex index).fillRatio = w.fillRatio := by
  by_cases hi : (w.temperatureUnitCombo.setCurrentIndex index).currentIndex
      = w.temperatureUnitCombo.currentIndex
  · simp [AirConditioningControl.setTemperatureUnitIndex, hi, AirConditioningControl.fillRatio]
  · simp only [AirConditioningControl.setTemperatureUnitIndex, hi, if_false,
      AirConditioningControl.updateTemperatureUnits]
    have hupd := updateTemperature_fillRatio
      { w with temperatureUnitCombo := w.temperatureUnitCombo.setCurrentIndex index }
      w.temperatureSlider.value hh
    rw [hbar]
    exact hupd

theorem setPressureUnitIndex_fillRatio (w : AirConditioningControl) (index : Int) :
    (w.setPressureUnitIndex index).fillRatio = w.fillRatio := by
  obtain ⟨hsame, -, -, hfill, -⟩ := AirConditioningControl.setPressureUnitIndex_same w index
  obtain ⟨-, -, -, -, hrect, -⟩ := hsame
  simp only [AirConditioningControl.fillRatio, hfill, hrect]

theorem loadSettingsFromXml_fillRatio (w : AirConditioningControl) (file : SettingsFile)
    (hh : w.temperatureRect.height ≠ 0)
    (hbar : w.fillRatio = ((w.temperatureSlider.value : ℚ) - w.temperatureSlider.minimum)
      / ((w.temperatureSlider.maximum : ℚ) - w.temperatureSlider.minimum)) :
    (w.loadSettingsFromXml file).fillRatio = w.fillRatio := by
  cases file with
  | unreadable => rfl
  | malformed => rfl
  | document doc =>
    simp only [AirConditioningControl.loadSettingsFromXml]
    cases doc.firstChildElement "TemperatureUnit" <;>
      cases doc.firstChildElement "PressureUnit" <;> simp only
    · exact setPressureUnitIndex_fillRatio w _
    · exact setTemperatureUnitIndex_fillRatio w _ hh hbar
    · rw [setPressureUnitIndex_fillRatio]
      exact setTemperatureUnitIndex_fillRatio w _ hh hbar

theorem clampUnit_of_clamp (t : Int) :
    (((clamp t 16 30 : Int) : ℚ) - 16) / (30 - 16) = specFillRatio t := by
  unfold specFillRatio clampUnit clamp
  by_cases h1 : t < 16
  · have h1q : (t : ℚ) < 16 := by exact_mod_cast h1
    have hq : ((t : ℚ) - 16) / (30 - 16) < 0 := by
      rw [div_lt_iff₀ (by norm_num)]; linarith
    simp only [if_pos h1, if_pos hq]
    norm_num
  · have h1q : (16 : ℚ) ≤ t := by exact_mod_cast not_lt.mp h1
    have hq : ¬ ((t : ℚ) - 16) / (30 - 16) < 0 := by
      rw [not_lt, le_div_iff₀ (by norm_num)]; linarith
    by_cases h2 : t > 30
    · have h2q : (30 : ℚ) < t := by exact_mod_cast h2
      have hq1 : ((t : ℚ) - 16) / (30 - 16) > 1 := by
        rw [gt_iff_lt, lt_div_iff₀ (by norm_num)]; linarith
      simp only [if_neg h1, if_pos h2, if_neg hq, if_pos hq1]
      norm_num
    · have h2q : (t : ℚ) ≤ 30 := by exact_mod_cast not_lt.mp h2
      have hq1 : ¬ ((t : ℚ) - 16) / (30 - 16) > 1 := by
        rw [gt_iff_lt, not_lt, div_le_iff₀ (by norm_num)]; linarith
      simp only [if_neg h1, if_neg h2, if_neg hq, if_neg hq1]

theorem construct_fillRatio (t p h : Int) (file : SettingsFile) (ht : 16 ≤ t ∧ t ≤ 30) :
    (AirConditioningControl.construct t p h file).fillRatio = ((t : ℚ) - 16) / (30 - 16) := by
  have hrect : (AirConditioningControl.createUI t p h).temperatureRect = ⟨0, 0, 300, 100⟩ := by
    simp [AirConditioningControl.createUI, AirConditioningControl.updateTemperature]
  have hslider : (AirConditioningControl.createUI t p h).temperatureSlider = ⟨16, 30, t⟩ := by
    simp [AirConditioningControl.createUI, AirConditioningControl.updateTemperature,
      QSlider.setRange, QSlider.setValue, QSlider.new, ht.1, ht.2]
  have hratio : (AirConditioningControl.createUI t p h).fillRatio
      = ((t : ℚ) - 16) / (30 - 16) := by
    simp [AirConditioningControl.createUI, AirConditioningControl.updateTemperature,
      AirConditioningControl.fillRatio, QSlider.setRange, QSlider.setValue, QSlider.new]
  unfold AirConditioningControl.construct
  rw [loadSettingsFromXml_fillRatio _ _ (by rw [hrect]; norm_num)
    (by rw [hratio, hslider]; norm_num), hratio]

/-- C11. For every integer value passed to `updateTemperature`, which is a value in [16, 30]
(the slider has the range 16..30 and `main` clamps the start-up temperature), in a window
whose slider has that range and whose bar has a height, the fill ratio (fill height over bar
height) equals (value - 16) / (30 - 16) clamped to [0, 1]: it is that quotient, lies in
[0, 1], is 0 at 16 and 1 at 30. The window `main` constructs shows, for the raw temperature t
of the dialog, the ratio (t - 16) / (30 - 16) clamped to [0, 1]. -/
theorem fill_ratio_in_slider_range (w : AirConditioningControl) (v : Int) (d : InputDialog)
    (file : SettingsFile)
    (hmin : w.temperatureSlider.minimum = 16) (hmax : w.temperatureSlider.maximum = 30)
    (hh : w.temperatureRect.height ≠ 0) (hv : 16 ≤ v ∧ v ≤ 30) :
    (w.updateTemperature v).fillRatio = ((v : ℚ) - 16) / (30 - 16)
    ∧ (w.updateTemperature v).fillRatio = specFillRatio v
    ∧ 0 ≤ (w.updateTemperature v).fillRatio
    ∧ (w.updateTemperature v).fillRatio ≤ 1
    ∧ (w.updateTemperature 16).fillRatio = 0
    ∧ (w.updateTemperature 30).fillRatio = 1
    ∧ (QApplication.main d true file).map AirConditioningControl.fillRatio
        = some (specFillRatio d.getTemperature) := by
  have key : ∀ x : Int, (w.updateTemperature x).fillRatio = ((x : ℚ) - 16) / (30 - 16) := by
    intro x
    rw [updateTemperature_fillRatio w x hh, hmin, hmax]
    norm_num
  have hclamp : clamp v 16 30 = v := by
    unfold clamp
    rw [if_neg (by omega), if_neg (by omega)]
  have hspec : ((v : ℚ) - 16) / (30 - 16) = specFillRatio v := by
    rw [← clampUnit_of_clamp v, hclamp]
  have hv1 : (16 : ℚ) ≤ v := by exact_mod_cast hv.1
  have hv2 : (v : ℚ) ≤ 30 := by exact_mod_cast hv.2
  refine ⟨key v, (key v).trans hspec, ?_, ?_, ?_, ?_, ?_⟩
  · rw [key, le_div_iff₀ (by norm_num)]; linarith
  · rw [key, div_le_iff₀ (by norm_num)]; linarith
  · rw [key]; norm_num
  · rw [key]; norm_num
  · simp only [QApplication.main, if_true, Option.map_some', Option.some.injEq]
    rw [clamp_eq_max_min _ 16 30 (by norm_num), construct_fillRatio _ _ _ _ (by
      unfold clamp; split_ifs <;> omega)]
    exact clampUnit_of_clamp _

theorem fill_ratio_in_slider_range_witness :
    ((AirConditioningControl.createUI 20 0 50).updateTemperature 23).fillRatio = 1 / 2 := by
  have h := (fill_ratio_in_slider_range (AirConditioningControl.createUI 20 0 50) 23
    ⟨"20", "0", "50"⟩ SettingsFile.unreadable (by decide) (by decide) (by decide)
    (by decide)).1
  rw [h]
  norm_num

/-! ## C12: the reachable positions of the airflow point -/

theorem moveAirflow_other_axis (w : AirConditioningControl) :
    (moveAirflow w Direction.Up).point.x = w.point.x
    ∧ (moveAirflow w Direction.Down).point.x = w.point.x
    ∧ (moveAirflow w Direction.Left).point.y = w.point.y
    ∧ (moveAirflow w Direction.Right).point.y = w.point.y := by
  refine ⟨?_, ?_, ?_, ?_⟩ <;>
    simp only [moveAirflow, AirConditioningControl.movePointUp,
      AirConditioningControl.movePointDown, AirConditioningControl.movePointLeft,
      AirConditioningControl.movePointRight, QPointF.moveBy] <;>
    split_ifs <;> simp

theorem moveAirflow_noop_iff (w : AirConditioningControl) (hb : InBounds w.point) :
    (moveAirflow w Direction.Up = w ↔ w.point.y = -150)
    ∧ (moveAirflow w Direction.Down = w ↔ w.point.y = 150)
    ∧ (moveAirflow w Direction.Left = w ↔ w.point.x = -150)
    ∧ (moveAirflow w Direction.Right = w ↔ w.point.x = 150) := by
  obtain ⟨h1, h2, h3, h4⟩ := hb
  refine ⟨?_, ?_, ?_, ?_⟩ <;>
    simp only [moveAirflow, AirConditioningControl.movePointUp,
      AirConditioningControl.movePointDown, AirConditioningControl.movePointLeft,
      AirConditioningControl.movePointRight, QPointF.moveBy] <;>
    split_ifs with hg <;>
    constructor <;> intro hyp
  all_goals first
    | omega
    | rfl
    | (have hpt := congrArg AirConditioningControl.point hyp
       have hxc := congrArg QPointF.x hpt
       have hyc := congrArg QPointF.y hpt
       dsimp only at hxc hyc
       omega)

/-- C12. Starting from the freshly constructed window, whose point is at (0, 0), after any
finite sequence of `movePointUp`, `movePointDown`, `movePointLeft` and `movePointRight` both
coordinates are multiples of 10 within [-150, 150]; in such a state Up and Down leave x
unchanged, Left and Right leave y unchanged, and a move changes nothing exactly when the
coordinate is at the bound in the direction of travel (Up: y = -150, Down: y = 150,
Left: x = -150, Right: x = 150). -/
theorem reachable_point_invariant (t p h : Int) (file : SettingsFile) (ds : List Direction) :
    (AirConditioningControl.construct t p h file).point = ⟨0, 0⟩
    ∧ InBounds (moveSequence (AirConditioningControl.construct t p h file) ds).point
    ∧ 10 ∣ (moveSequence (AirConditioningControl.construct t p h file) ds).point.x
    ∧ 10 ∣ (moveSequence (AirConditioningControl.construct t p h file) ds).point.y
    ∧ ((moveAirflow (moveSequence (AirConditioningControl.construct t p h file) ds)
          Direction.Up).point.x
        = (moveSequence (AirConditioningControl.construct t p h file) ds).point.x
      ∧ (moveAirflow (moveSequence (AirConditioningControl.construct t p h file) ds)
          Direction.Down).point.x
        = (moveSequence (AirConditioningControl.construct t p h file) ds).point.x
      ∧ (moveAirflow (moveSequence (AirConditioningControl.construct t p h file) ds)
          Direction.Left).point.y
        = (moveSequence (AirConditioningControl.construct t p h file) ds).point.y
      ∧ (moveAirflow (moveSequence (AirConditioningControl.construct t p h file) ds)
          Direction.Right).point.y
        = (moveSequence (AirConditioningControl.construct t p h file) ds).point.y)
    ∧ ((moveAirflow (moveSequence (AirConditioningControl.construct t p h file) ds)
          Direction.Up
          = moveSequence (AirConditioningControl.construct t p h file) ds
        ↔ (moveSequence (AirConditioningControl.construct t p h file) ds).point.y = -150)
      ∧ (moveAirflow (moveSequence (AirConditioningControl.construct t p h file) ds)
          Direction.Down
          = moveSequence (AirConditioningControl.construct t p h file) ds
        ↔ (moveSequence (AirConditioningControl.construct t p h file) ds).point.y = 150)
      ∧ (moveAirflow (moveSequence (AirConditioningControl.construct t p h file) ds)
          Direction.Left
          = moveSequence (AirConditioningControl.construct t p h file) ds
        ↔ (moveSequence (AirConditioningControl.construct t p h file) ds).point.x = -150)
      ∧ (moveAirflow (moveSequence (AirConditioningControl.construct t p h file) ds)
          Direction.Right
          = moveSequence (AirConditioningControl.construct t p h file) ds
        ↔ (moveSequence (AirConditioningControl.construct t p h file) ds).point.x = 150)) := by
  have h0 := construct_point t p h file
  obtain ⟨hb, hx, hy⟩ := moveSequence_grid ds (AirConditioningControl.construct t p h file)
    (by rw [h0]; decide) (by rw [h0]; decide) (by rw [h0]; decide)
  exact ⟨h0, hb, hx, hy, moveAirflow_other_axis _, moveAirflow_noop_iff _ hb⟩
